import Mathlib

/-
Verification development for the vice-file-transfers service (cyverse-de).

The service is an HTTP-triggered job launcher: POST /download and POST /upload
create a status record, consult a per-kind single-flight gate, and possibly
launch a porklock subprocess in a background goroutine; GET endpoints poll the
record by id.  The definitions below are a shallow embedding of the Go source:
pure functions become Lean functions, the background goroutine becomes a trace
of atomic events, the mutex-guarded gate accesses of two concurrent requests
become an explicit two-thread interleaving model, and effects (uuid.New,
time.Now, os.Stat, os.Create, cmd.Run outcomes) become explicit parameters.
-/

namespace VFT

/-- Model of Go time.Time: an abstract instant. The zero value (val = 0) is the
Go zero time 0001-01-01T00:00:00Z, which an unset CompletionTime holds. -/
structure GoTime where
  val : Nat
deriving DecidableEq

/-- The Go zero time, the value of a time.Time field that was never assigned. -/
def GoTime.zero : GoTime := ⟨0⟩

/-- Query-parameter key constant (source: const nonBlockingKey = "non-blocking"). -/
def nonBlockingKey : String := "non-blocking"

/-- Kind constant for upload records. -/
def UploadKind : String := "upload"

/-- Kind constant for download records. -/
def DownloadKind : String := "download"

/-- Status constant: transfer requested but not started. -/
def RequestedStatus : String := "requested"

/-- Status constant: a downloading request is running. -/
def DownloadingStatus : String := "downloading"

/-- Status constant: an uploading request is running. -/
def UploadingStatus : String := "uploading"

/-- Status constant: the transfer request failed. -/
def FailedStatus : String := "failed"

/-- Status constant: the transfer request succeeded. -/
def CompletedStatus : String := "completed"

/-- Model of the TransferRecord struct. UUID is modelled by its string form
(uuid.UUID.String() is injective on UUIDs); the unexported mutex field is not
data and concurrency is handled by the event/interleaving models below. -/
structure TransferRecord where
  UUID : String
  StartTime : GoTime
  CompletionTime : GoTime
  Status : String
  Kind : String
deriving DecidableEq

/-- NewDownloadRecord from the source: a fresh record with the given uuid and
current time, Status "requested" and Kind DownloadKind. CompletionTime is the
Go zero value because the struct literal does not assign it. -/
def NewDownloadRecord (id : String) (now : GoTime) : TransferRecord :=
  { UUID := id
    StartTime := now
    CompletionTime := GoTime.zero
    Status := RequestedStatus
    Kind := DownloadKind }

/-- NewUploadRecord from the source. Note: the Go source assigns
Kind: DownloadKind in this constructor as well (part_000 line 87), although its
doc comment promises a Kind of "upload"; the embedding is faithful to the code. -/
def NewUploadRecord (id : String) (now : GoTime) : TransferRecord :=
  { UUID := id
    StartTime := now
    CompletionTime := GoTime.zero
    Status := RequestedStatus
    Kind := DownloadKind }

/-- The HistoricalRecords store is an append-only list of records. -/
abbrev HistoricalRecords := List TransferRecord

/-- Append adds another record at the end of the list (source: Append). -/
def HistoricalRecords.Append (h : HistoricalRecords) (tr : TransferRecord) :
    HistoricalRecords :=
  h ++ [tr]

/-- FindRecord scans the list in order and returns the first record whose UUID
string equals the requested id, or none (source: FindRecord, which returns nil
when nothing matches). -/
def HistoricalRecords.FindRecord (h : HistoricalRecords) (id : String) :
    Option TransferRecord :=
  h.find? (fun dr => dr.UUID == id)

/-- Model of the App configuration state (part_000). The WaitGroups and the
record stores are threaded explicitly through the handler models. -/
structure App where
  LogDirectory : String
  User : String
  UploadDestination : String
  DownloadDestination : String
  InvocationID : String
  InputPathList : String
  ExcludesPath : String
  ConfigPath : String
  FileMetadata : List String

/-- Model of Go path.Join for the dir/file uses in this program. -/
def pathJoin (dir file : String) : String := dir ++ "/" ++ file

/-- downloadCommand from the source: the fixed porklock get invocation followed
by a -m pair per metadata tag, built by a left fold exactly like the Go loop. -/
def App.downloadCommand (a : App) : List String :=
  a.FileMetadata.foldl (fun retval fm => retval ++ ["-m", fm])
    ["porklock", "-jar", "/usr/src/app/porklock-standalone.jar", "get",
     "--user", a.User,
     "--source-list", a.InputPathList,
     "--destination", a.DownloadDestination,
     "-z", a.ConfigPath]

/-- uploadCommand from the source: the fixed porklock put invocation followed
by a -m pair per metadata tag. -/
def App.uploadCommand (a : App) : List String :=
  a.FileMetadata.foldl (fun retval fm => retval ++ ["-m", fm])
    ["porklock", "-jar", "/usr/src/app/porklock-standalone.jar", "put",
     "--user", a.User,
     "--source", a.DownloadDestination,
     "--destination", a.UploadDestination,
     "--exclude", a.ExcludesPath,
     "-z", a.ConfigPath]

/-- fileUseable from the source: os.Stat succeeds on the path. The filesystem
is modelled as a predicate giving the set of stat-able paths. -/
def fileUseable (fs : String → Bool) (aPath : String) : Bool := fs aPath

/-- Result of one trigger-handler invocation (the synchronous part of
DownloadFiles / UploadFiles): the updated store, the fresh record the handler
serializes back, whether a background goroutine was launched, and the value of
the per-kind running flag when the handler body is done (the goroutine then
mutates the flag on its own schedule). -/
structure TriggerResult where
  records : HistoricalRecords
  record : TransferRecord
  launched : Bool
  runningAfter : Bool
deriving DecidableEq

/-- Synchronous part of DownloadFiles (part_000 lines 195 to 205): create a
record, append it to the store, then under the mutex read the flag and the
fileUseable precondition to decide shouldRun. The handler itself never writes
downloadRunning; only the goroutine does, later. -/
def DownloadFiles (a : App) (fs : String → Bool) (downloadRunning : Bool)
    (records : HistoricalRecords) (freshId : String) (now : GoTime) :
    TriggerResult :=
  let downloadRecord := NewDownloadRecord freshId now
  let stored := HistoricalRecords.Append records downloadRecord
  let shouldRun := !downloadRunning && fileUseable fs a.InputPathList
  { records := stored
    record := downloadRecord
    launched := shouldRun
    runningAfter := downloadRunning }

/-- Synchronous part of UploadFiles (part_000 lines 328 to 339): create and
append a record, then atomically read the flag into shouldRun and set it true
in the same critical section (check-and-set). -/
def UploadFiles (a : App) (uploadRunning : Bool)
    (records : HistoricalRecords) (freshId : String) (now : GoTime) :
    TriggerResult :=
  let uploadRecord := NewUploadRecord freshId now
  let stored := HistoricalRecords.Append records uploadRecord
  let shouldRun := !uploadRunning
  { records := stored
    record := uploadRecord
    launched := shouldRun
    runningAfter := true }

/-- GetDownloadStatus (part_000): look the id up in the download store; none
models the 404 path. -/
def GetDownloadStatus (downloadRecords : HistoricalRecords) (id : String) :
    Option TransferRecord :=
  HistoricalRecords.FindRecord downloadRecords id

/-- GetUploadStatus (part_000): look the id up in the upload store; none
models the 404 path. -/
def GetUploadStatus (uploadRecords : HistoricalRecords) (id : String) :
    Option TransferRecord :=
  HistoricalRecords.FindRecord uploadRecords id

/-- JSON values as they appear in this program: every field of the record
marshals to a JSON string. -/
inductive JsonValue where
  | str (s : String)
deriving DecidableEq

/-- Model of how encoding/json renders a time.Time value: the zero value
renders as the RFC3339 string 0001-01-01T00:00:00Z; other instants are
abstracted by their offset. -/
def formatRFC3339 (t : GoTime) : String :=
  if t.val == 0 then "0001-01-01T00:00:00Z" else "instant-" ++ toString t.val

/-- Model of json.Marshal of a TransferRecord as performed by MarshalAndWrite:
the exported fields in declaration order under their json tags; the unexported
mutex is skipped; no tag has omitempty, so every field is always emitted. -/
def marshalTransferRecord (r : TransferRecord) : List (String × JsonValue) :=
  [("uuid", JsonValue.str r.UUID),
   ("start_time", JsonValue.str (formatRFC3339 r.StartTime)),
   ("completion_time", JsonValue.str (formatRFC3339 r.CompletionTime)),
   ("status", JsonValue.str r.Status),
   ("kind", JsonValue.str r.Kind)]

/-- Atomic events performed by a background transfer goroutine, in program
order: writes to the per-kind running flag (under its mutex), record status
writes, the completion-time stamp, log-file creation attempts, the subprocess
execution, and the WaitGroup Done call. -/
inductive Event where
  | setRunning (b : Bool)
  | setStatus (s : String)
  | setCompletionTime
  | createLog (logPath : String) (ok : Bool)
  | runSubprocess (argv : List String) (ok : Bool)
  | waitDone
deriving DecidableEq

/-- The four ways a launched goroutine can go: stdout log creation fails,
stderr log creation fails, cmd.Run returns an error (launch failure or nonzero
exit), or everything succeeds. -/
inductive RunOutcome where
  | stdoutLogFail
  | stderrLogFail
  | subprocessFail
  | success
deriving DecidableEq

/-- Event trace of the download goroutine (part_000 lines 210 to 268). It sets
the flag true, sets status downloading, then runs the body; the deferred
function (completion stamp, flag reset, WaitGroup Done) runs on every return
path, so it is appended to each branch. -/
def downloadGoroutine (a : App) (o : RunOutcome) : List Event :=
  [Event.setRunning true, Event.setStatus DownloadingStatus] ++
  (match o with
    | RunOutcome.stdoutLogFail =>
        [Event.createLog (pathJoin a.LogDirectory "downloads.stdout.log") false,
         Event.setStatus FailedStatus]
    | RunOutcome.stderrLogFail =>
        [Event.createLog (pathJoin a.LogDirectory "downloads.stdout.log") true,
         Event.createLog (pathJoin a.LogDirectory "downloads.stderr.log") false,
         Event.setStatus FailedStatus]
    | RunOutcome.subprocessFail =>
        [Event.createLog (pathJoin a.LogDirectory "downloads.stdout.log") true,
         Event.createLog (pathJoin a.LogDirectory "downloads.stderr.log") true,
         Event.runSubprocess a.downloadCommand false,
         Event.setStatus FailedStatus]
    | RunOutcome.success =>
        [Event.createLog (pathJoin a.LogDirectory "downloads.stdout.log") true,
         Event.createLog (pathJoin a.LogDirectory "downloads.stderr.log") true,
         Event.runSubprocess a.downloadCommand true,
         Event.setStatus CompletedStatus]) ++
  [Event.setCompletionTime, Event.setRunning false, Event.waitDone]

/-- Event trace of the upload goroutine (part_000 lines 344 to 387).
Faithful to the source: the handler already set the flag, and the goroutine
never writes any running status (no SetStatus(UploadingStatus) call exists);
the deferred completion stamp, flag reset and Done run on every return path. -/
def uploadGoroutine (a : App) (o : RunOutcome) : List Event :=
  (match o with
    | RunOutcome.stdoutLogFail =>
        [Event.createLog (pathJoin a.LogDirectory "uploads.stdout.log") false,
         Event.setStatus FailedStatus]
    | RunOutcome.stderrLogFail =>
        [Event.createLog (pathJoin a.LogDirectory "uploads.stdout.log") true,
         Event.createLog (pathJoin a.LogDirectory "uploads.stderr.log") false,
         Event.setStatus FailedStatus]
    | RunOutcome.subprocessFail =>
        [Event.createLog (pathJoin a.LogDirectory "uploads.stdout.log") true,
         Event.createLog (pathJoin a.LogDirectory "uploads.stderr.log") true,
         Event.runSubprocess a.uploadCommand false,
         Event.setStatus FailedStatus]
    | RunOutcome.success =>
        [Event.createLog (pathJoin a.LogDirectory "uploads.stdout.log") true,
         Event.createLog (pathJoin a.LogDirectory "uploads.stderr.log") true,
         Event.runSubprocess a.uploadCommand true,
         Event.setStatus CompletedStatus]) ++
  [Event.setCompletionTime, Event.setRunning false, Event.waitDone]

/-- Effect of one event on the record it mutates; completion stamps use the
time stampTime at which the deferred function runs. -/
def applyEvent (stampTime : GoTime) (r : TransferRecord) (e : Event) :
    TransferRecord :=
  match e with
  | Event.setStatus s => { r with Status := s }
  | Event.setCompletionTime => { r with CompletionTime := stampTime }
  | _ => r

/-- Record state after a whole trace has run. -/
def applyTrace (stampTime : GoTime) (r : TransferRecord) (t : List Event) :
    TransferRecord :=
  t.foldl (applyEvent stampTime) r

/-- The status values a trace writes, in order. -/
def statusWrites (t : List Event) : List String :=
  t.filterMap (fun e =>
    match e with
    | Event.setStatus s => some s
    | _ => none)

/-- The full sequence of status values a record takes: the initial value
"requested" from its constructor followed by every write of the trace. -/
def statusTrace (t : List Event) : List String :=
  RequestedStatus :: statusWrites t

/-- Recognizes the completion-time stamp event. -/
def isSetCompletionTime : Event → Bool
  | Event.setCompletionTime => true
  | _ => false

/-- Recognizes a release of the gate (a write of false to the running flag). -/
def isRelease : Event → Bool
  | Event.setRunning false => true
  | _ => false

/-- Recognizes the subprocess execution event. -/
def isRunSubprocess : Event → Bool
  | Event.runSubprocess _ _ => true
  | _ => false

/-- Number of completion-time stamps in a trace. -/
def completionWrites (t : List Event) : Nat := t.countP isSetCompletionTime

/-- Number of gate releases in a trace. -/
def releaseWrites (t : List Event) : Nat := t.countP isRelease

/-- Value of the per-kind running flag after the trace, starting from g. -/
def gateAfter (g : Bool) (t : List Event) : Bool :=
  t.foldl (fun cur e =>
    match e with
    | Event.setRunning b => b
    | _ => cur) g

/-- Model of Go req.FormValue over the parsed query: the first value bound to
the key, or the empty string when the key is absent (main.go line 135/289). -/
def formValue (query : List (String × String)) (key : String) : String :=
  match query.find? (fun kv => kv.1 == key) with
  | some kv => kv.2
  | none => ""

/-- Whether the query carries the key at all, with any value including the
empty one (what the claim means by presence of the parameter). -/
def queryHas (query : List (String × String)) (key : String) : Bool :=
  (query.find? (fun kv => kv.1 == key)).isSome

/-- Blocking decision of the download handler (main.go line 206): block when
FormValue of the non-blocking key is empty and a job is running or was just
launched by this request; blocking then waits on the download WaitGroup. -/
def blocksDownload (query : List (String × String))
    (downloadRunning shouldRun : Bool) : Bool :=
  (formValue query nonBlockingKey == "") && (downloadRunning || shouldRun)

/-- Blocking decision of the upload handler (main.go line 345), identical in
shape to the download one. -/
def blocksUpload (query : List (String × String))
    (uploadRunning shouldRun : Bool) : Bool :=
  (formValue query nonBlockingKey == "") && (uploadRunning || shouldRun)

/-- Program counter of one download request thread in the interleaving model:
the mutex-guarded gate check of the handler (a pure read, lines 201 to 204),
then inside the goroutine the mutex-guarded flag set (lines 221 to 223), the
subprocess start, and the subprocess finish together with the deferred flag
reset. A request whose check sees the flag true goes straight to done. -/
inductive DPhase where
  | checkGate
  | setGate
  | startProc
  | finishProc
  | done
deriving DecidableEq

/-- Shared state for two concurrent download requests: the downloadRunning
flag, each thread program counter, how many porklock subprocesses are
executing right now, and how many were ever started. The input-path-list file
is taken to exist, so fileUseable is true. -/
structure DRaceState where
  running : Bool
  pc1 : DPhase
  pc2 : DPhase
  active : Nat
  launches : Nat
deriving DecidableEq

/-- One atomic step of the chosen thread (false picks the first request, true
the second). Each critical section of the source is one atomic step. -/
def dstep (s : DRaceState) (second : Bool) : DRaceState :=
  let pc := if second then s.pc2 else s.pc1
  let next : Bool × DPhase × Nat × Nat :=
    match pc with
    | DPhase.checkGate =>
        if !s.running then (s.running, DPhase.setGate, s.active, s.launches)
        else (s.running, DPhase.done, s.active, s.launches)
    | DPhase.setGate => (true, DPhase.startProc, s.active, s.launches)
    | DPhase.startProc =>
        (s.running, DPhase.finishProc, s.active + 1, s.launches + 1)
    | DPhase.finishProc => (false, DPhase.done, s.active - 1, s.launches)
    | DPhase.done => (s.running, DPhase.done, s.active, s.launches)
  if second then
    { running := next.1, pc1 := s.pc1, pc2 := next.2.1,
      active := next.2.2.1, launches := next.2.2.2 }
  else
    { running := next.1, pc1 := next.2.1, pc2 := s.pc2,
      active := next.2.2.1, launches := next.2.2.2 }

/-- Initial state: no download running, both requests about to run the gate
check. -/
def draceInit : DRaceState :=
  { running := false, pc1 := DPhase.checkGate, pc2 := DPhase.checkGate,
    active := 0, launches := 0 }

/-- Run a schedule (a list of thread choices) from the initial state. -/
def drun (sched : List Bool) : DRaceState :=
  sched.foldl dstep draceInit

/-- Program counter of one upload request thread: the handler check-and-set
(lines 334 to 337) is a single atomic step that reads the flag and writes it
true in the same critical section; then the subprocess starts, and finishes
together with the deferred flag reset. -/
inductive UPhase where
  | checkAndSet
  | startProc
  | finishProc
  | done
deriving DecidableEq

/-- Shared state for two concurrent upload requests. -/
structure URaceState where
  running : Bool
  pc1 : UPhase
  pc2 : UPhase
  active : Nat
  launches : Nat
deriving DecidableEq

/-- One atomic step of the chosen upload thread. -/
def ustep (s : URaceState) (second : Bool) : URaceState :=
  let pc := if second then s.pc2 else s.pc1
  let next : Bool × UPhase × Nat × Nat :=
    match pc with
    | UPhase.checkAndSet =>
        if !s.running then (true, UPhase.startProc, s.active, s.launches)
        else (true, UPhase.done, s.active, s.launches)
    | UPhase.startProc =>
        (s.running, UPhase.finishProc, s.active + 1, s.launches + 1)
    | UPhase.finishProc => (false, UPhase.done, s.active - 1, s.launches)
    | UPhase.done => (s.running, UPhase.done, s.active, s.launches)
  if second then
    { running := next.1, pc1 := s.pc1, pc2 := next.2.1,
      active := next.2.2.1, launches := next.2.2.2 }
  else
    { running := next.1, pc1 := next.2.1, pc2 := s.pc2,
      active := next.2.2.1, launches := next.2.2.2 }

/-- Initial state for two concurrent upload requests. -/
def uraceInit : URaceState :=
  { running := false, pc1 := UPhase.checkAndSet, pc2 := UPhase.checkAndSet,
    active := 0, launches := 0 }

/-- Run an upload schedule from the initial state. -/
def urun (sched : List Bool) : URaceState :=
  sched.foldl ustep uraceInit

/-- A sample configuration used for concrete evaluations, with the default
paths of the flag parser. -/
def sampleApp : App :=
  { LogDirectory := "/input-files"
    User := "nobody"
    UploadDestination := "/dest"
    DownloadDestination := "/input-files"
    InvocationID := "inv-1"
    InputPathList := "/input-paths/input-path-list"
    ExcludesPath := "/excludes/excludes-file"
    ConfigPath := "/etc/porklock/irods-config.properties"
    FileMetadata := [] }

/-- Folding the metadata-pair append over the tag list equals the base vector
followed by the flattened pairs, one pair per tag in order. -/
theorem foldl_metadata_pairs (l base : List String) :
    l.foldl (fun retval fm => retval ++ ["-m", fm]) base =
      base ++ (l.map (fun fm => ["-m", fm])).flatten := by
  induction l generalizing base with
  | nil => simp
  | cons x xs ih => simp [ih, List.append_assoc]

/-- Looking up a freshly appended record by its id succeeds when no earlier
record in the store carries that id. -/
theorem FindRecord_append_fresh (recs : HistoricalRecords)
    (rec : TransferRecord) (h : ∀ r ∈ recs, r.UUID ≠ rec.UUID) :
    HistoricalRecords.FindRecord (recs ++ [rec]) rec.UUID = some rec := by
  have hnone : recs.find? (fun dr => dr.UUID == rec.UUID) = none := by
    rw [List.find?_eq_none]
    intro x hx
    simpa using h x hx
  simp [HistoricalRecords.FindRecord, List.find?_append, hnone]

/-- The store lookup returns the not-found signal exactly when no stored
record carries the requested id. -/
theorem FindRecord_eq_none_iff (l : HistoricalRecords) (q : String) :
    HistoricalRecords.FindRecord l q = none ↔ ∀ r ∈ l, r.UUID ≠ q := by
  simp [HistoricalRecords.FindRecord, List.find?_eq_none]

/-- C1: the claim states that for each kind the check of the running flag and
the decision to launch happen atomically in one critical section, so no
interleaving of two concurrent trigger requests launches two subprocesses.
Evaluating the download interleaving model refutes this for the download kind:
the download handler only reads downloadRunning in its critical section and the
flag is set later inside the goroutine, so under the schedule in which both
requests run their gate check first, both launch, and two porklock download
subprocesses are active at the same instant. -/
theorem c1_download_gate_race :
    (drun [false, true, false, false, true, true]).launches = 2 ∧
    (drun [false, true, false, false, true, true]).active = 2 := by
  decide

/-- C2 counterexample: a request whose query carries the non-blocking key with
the empty value while a job of that kind is running. The parameter is present,
yet FormValue returns the empty string and both handlers decide to block,
refuting the claim that presence with any value including the empty one selects
fire-and-forget. -/
theorem c2_present_empty_value_blocks :
    queryHas [(nonBlockingKey, "")] nonBlockingKey = true ∧
    blocksDownload [(nonBlockingKey, "")] true false = true ∧
    blocksUpload [(nonBlockingKey, "")] true false = true := by
  decide

/-- C2 amended: the response is non-blocking exactly when the first value bound
to the non-blocking key is non-empty, or when no job of that kind is running
and none was just launched; a parameter present with the empty value makes the
same decision as an absent parameter. -/
theorem c2_blocking_characterization (query : List (String × String))
    (running shouldRun : Bool) :
    (blocksDownload query running shouldRun = false ↔
      (formValue query nonBlockingKey ≠ "" ∨
        (running = false ∧ shouldRun = false))) ∧
    (blocksUpload query running shouldRun = false ↔
      (formValue query nonBlockingKey ≠ "" ∨
        (running = false ∧ shouldRun = false))) ∧
    blocksDownload ((nonBlockingKey, "") :: query) running shouldRun =
      blocksDownload [] running shouldRun := by
  refine ⟨?_, ?_, ?_⟩
  · cases h : formValue query nonBlockingKey == "" <;>
      cases running <;> cases shouldRun <;>
        simp_all [blocksDownload]
  · cases h : formValue query nonBlockingKey == "" <;>
      cases running <;> cases shouldRun <;>
        simp_all [blocksUpload]
  · rfl

/-- C4: evaluating the record constructors. NewDownloadRecord fills id, start
time, requested status and kind download as claimed, and NewUploadRecord fills
id, start time and requested status, but its kind is "download": the source
assigns DownloadKind in both constructors, contradicting NewUploadRecord's own
doc comment which promises a Kind of "upload". -/
theorem c4_new_upload_record_wrong_kind :
    (NewUploadRecord "id-1" ⟨7⟩).Kind = DownloadKind ∧
    DownloadKind ≠ UploadKind ∧
    (NewUploadRecord "id-1" ⟨7⟩).Status = RequestedStatus ∧
    (NewUploadRecord "id-1" ⟨7⟩).UUID = "id-1" ∧
    (NewUploadRecord "id-1" ⟨7⟩).StartTime = ⟨7⟩ ∧
    (NewUploadRecord "id-1" ⟨7⟩).CompletionTime = GoTime.zero ∧
    (NewDownloadRecord "id-2" ⟨7⟩).Kind = DownloadKind ∧
    (NewDownloadRecord "id-2" ⟨7⟩).Status = RequestedStatus ∧
    (NewDownloadRecord "id-2" ⟨7⟩).UUID = "id-2" ∧
    (NewDownloadRecord "id-2" ⟨7⟩).StartTime = ⟨7⟩ := by
  decide

/-- C6: evaluating the goroutine traces at the sample configuration. The
download goroutine writes the downloading status strictly before the
subprocess event, but the upload goroutine reaches its subprocess event
without ever writing the uploading status (no such write occurs anywhere in
its trace), refuting the claim for the upload kind. -/
theorem c6_upload_never_marked_uploading :
    Event.setStatus UploadingStatus ∉
      uploadGoroutine sampleApp RunOutcome.success ∧
    (uploadGoroutine sampleApp RunOutcome.success).any isRunSubprocess = true ∧
    Event.setStatus DownloadingStatus ∈
      (downloadGoroutine sampleApp RunOutcome.success).takeWhile
        (fun e => !isRunSubprocess e) := by
  decide

/-- C9: for every configuration the Runner argument vectors are exactly the
fixed porklock get and put invocations followed by one pair of "-m" and the
tag for every metadata tag, in order. -/
theorem c9_porklock_argument_vectors (a : App) :
    a.downloadCommand =
      ["porklock", "-jar", "/usr/src/app/porklock-standalone.jar", "get",
       "--user", a.User,
       "--source-list", a.InputPathList,
       "--destination", a.DownloadDestination,
       "-z", a.ConfigPath] ++
      (a.FileMetadata.map (fun fm => ["-m", fm])).flatten ∧
    a.uploadCommand =
      ["porklock", "-jar", "/usr/src/app/porklock-standalone.jar", "put",
       "--user", a.User,
       "--source", a.DownloadDestination,
       "--destination", a.UploadDestination,
       "--exclude", a.ExcludesPath,
       "-z", a.ConfigPath] ++
      (a.FileMetadata.map (fun fm => ["-m", fm])).flatten :=
  ⟨foldl_metadata_pairs a.FileMetadata _, foldl_metadata_pairs a.FileMetadata _⟩

/-- C3: when stat on the input path list fails, the download handler launches
no goroutine, the freshly appended record keeps status requested with its
completion time unset (and since nothing was launched, no background context
exists to ever change it), the running flag is left untouched, and a later
request finding the file present does launch. -/
theorem c3_download_missing_input_list (a : App) (fs : String → Bool)
    (recs : HistoricalRecords) (id id2 : String) (now now2 : GoTime)
    (h : fs a.InputPathList = false) :
    (DownloadFiles a fs false recs id now).launched = false ∧
    (DownloadFiles a fs false recs id now).record.Status = RequestedStatus ∧
    (DownloadFiles a fs false recs id now).record.CompletionTime =
      GoTime.zero ∧
    (DownloadFiles a fs false recs id now).runningAfter = false ∧
    (DownloadFiles a (fun _ => true) false
        (DownloadFiles a fs false recs id now).records id2 now2).launched =
      true := by
  simp [DownloadFiles, fileUseable, h, NewDownloadRecord]

/-- C3 witness: the missing-file hypothesis and the conclusion hold at a
concrete configuration with an empty filesystem. -/
theorem c3_download_missing_input_list_witness :
    ((fun _ => false) : String → Bool) sampleApp.InputPathList = false ∧
    ((DownloadFiles sampleApp (fun _ => false) false [] "w1" ⟨1⟩).launched =
        false ∧
      (DownloadFiles sampleApp (fun _ => false) false [] "w1" ⟨1⟩).record.Status =
        RequestedStatus ∧
      (DownloadFiles sampleApp (fun _ => false) false [] "w1" ⟨1⟩).record.CompletionTime =
        GoTime.zero ∧
      (DownloadFiles sampleApp (fun _ => false) false [] "w1" ⟨1⟩).runningAfter =
        false ∧
      (DownloadFiles sampleApp (fun _ => true) false
          (DownloadFiles sampleApp (fun _ => false) false [] "w1" ⟨1⟩).records
          "w2" ⟨2⟩).launched = true) :=
  ⟨rfl, c3_download_missing_input_list sampleApp (fun _ => false) [] "w1" "w2"
    ⟨1⟩ ⟨2⟩ rfl⟩

/-- C10: serializing any record emits exactly the five fields uuid,
start_time, completion_time, status and kind in declaration order, and a
record whose completion time still holds the Go zero value gets a
completion_time field carrying the zero timestamp string rather than having
the field omitted. -/
theorem c10_marshal_always_five_fields (r : TransferRecord) :
    (marshalTransferRecord r).map Prod.fst =
      ["uuid", "start_time", "completion_time", "status", "kind"] ∧
    (r.CompletionTime = GoTime.zero →
      (marshalTransferRecord r).lookup "completion_time" =
        some (JsonValue.str "0001-01-01T00:00:00Z")) := by
  refine ⟨rfl, fun h => ?_⟩
  simp [marshalTransferRecord, List.lookup, h, formatRFC3339, GoTime.zero]

/-- C10 witness: a freshly requested record serializes with the zero
completion timestamp present. -/
theorem c10_marshal_always_five_fields_witness :
    (marshalTransferRecord (NewDownloadRecord "w3" ⟨3⟩)).lookup
        "completion_time" =
      some (JsonValue.str "0001-01-01T00:00:00Z") :=
  (c10_marshal_always_five_fields (NewDownloadRecord "w3" ⟨3⟩)).2 rfl

/-- C5: lifecycle of a record over every execution. For a launched download
the status sequence is a subsequence of requested, downloading, completed or
of requested, downloading, failed; for a launched upload it is a subsequence of
the corresponding uploading chains (the running status is simply skipped);
neither trace ever writes requested again; the completion time is stamped
exactly once, and once the goroutine has finished the record is terminal with a
set (non-zero) completion time. A record whose request launched nothing stays
requested with its completion time unset. -/
theorem c5_record_lifecycle (a : App) (o : RunOutcome) (id : String)
    (t0 tEnd : GoTime) (hEnd : tEnd ≠ GoTime.zero) :
    ((statusTrace (downloadGoroutine a o)).Sublist
        [RequestedStatus, DownloadingStatus, CompletedStatus] ∨
      (statusTrace (downloadGoroutine a o)).Sublist
        [RequestedStatus, DownloadingStatus, FailedStatus]) ∧
    RequestedStatus ∉ statusWrites (downloadGoroutine a o) ∧
    completionWrites (downloadGoroutine a o) = 1 ∧
    ((applyTrace tEnd (NewDownloadRecord id t0)
          (downloadGoroutine a o)).Status = CompletedStatus ∨
      (applyTrace tEnd (NewDownloadRecord id t0)
          (downloadGoroutine a o)).Status = FailedStatus) ∧
    (applyTrace tEnd (NewDownloadRecord id t0)
        (downloadGoroutine a o)).CompletionTime ≠ GoTime.zero ∧
    ((statusTrace (uploadGoroutine a o)).Sublist
        [RequestedStatus, UploadingStatus, CompletedStatus] ∨
      (statusTrace (uploadGoroutine a o)).Sublist
        [RequestedStatus, UploadingStatus, FailedStatus]) ∧
    RequestedStatus ∉ statusWrites (uploadGoroutine a o) ∧
    completionWrites (uploadGoroutine a o) = 1 ∧
    ((applyTrace tEnd (NewUploadRecord id t0)
          (uploadGoroutine a o)).Status = CompletedStatus ∨
      (applyTrace tEnd (NewUploadRecord id t0)
          (uploadGoroutine a o)).Status = FailedStatus) ∧
    (applyTrace tEnd (NewUploadRecord id t0)
        (uploadGoroutine a o)).CompletionTime ≠ GoTime.zero ∧
    (NewDownloadRecord id t0).Status = RequestedStatus ∧
    (NewDownloadRecord id t0).CompletionTime = GoTime.zero := by
  have hdw : statusTrace (downloadGoroutine a o) =
      [RequestedStatus, DownloadingStatus,
        if o = RunOutcome.success then CompletedStatus else FailedStatus] := by
    cases o <;> rfl
  have huw : statusTrace (uploadGoroutine a o) =
      [RequestedStatus,
        if o = RunOutcome.success then CompletedStatus else FailedStatus] := by
    cases o <;> rfl
  have hdA : applyTrace tEnd (NewDownloadRecord id t0) (downloadGoroutine a o) =
      { UUID := id, StartTime := t0, CompletionTime := tEnd,
        Status := if o = RunOutcome.success then CompletedStatus
          else FailedStatus,
        Kind := DownloadKind } := by
    cases o <;> rfl
  have huA : applyTrace tEnd (NewUploadRecord id t0) (uploadGoroutine a o) =
      { UUID := id, StartTime := t0, CompletionTime := tEnd,
        Status := if o = RunOutcome.success then CompletedStatus
          else FailedStatus,
        Kind := DownloadKind } := by
    cases o <;> rfl
  have hdw2 : statusWrites (downloadGoroutine a o) =
      [DownloadingStatus,
        if o = RunOutcome.success then CompletedStatus else FailedStatus] := by
    cases o <;> rfl
  have huw2 : statusWrites (uploadGoroutine a o) =
      [if o = RunOutcome.success then CompletedStatus else FailedStatus] := by
    cases o <;> rfl
  have hdc : completionWrites (downloadGoroutine a o) = 1 := by
    cases o <;> rfl
  have huc : completionWrites (uploadGoroutine a o) = 1 := by
    cases o <;> rfl
  have hdwr : RequestedStatus ∉ statusWrites (downloadGoroutine a o) := by
    rw [hdw2]
    by_cases ho : o = RunOutcome.success
    · rw [if_pos ho]; decide
    · rw [if_neg ho]; decide
  have huwr : RequestedStatus ∉ statusWrites (uploadGoroutine a o) := by
    rw [huw2]
    by_cases ho : o = RunOutcome.success
    · rw [if_pos ho]; decide
    · rw [if_neg ho]; decide
  refine ⟨?_, hdwr, hdc, ?_, ?_, ?_, huwr, huc, ?_, ?_, rfl, rfl⟩
  · rw [hdw]
    by_cases ho : o = RunOutcome.success
    · rw [if_pos ho]; left; decide
    · rw [if_neg ho]; right; decide
  · rw [hdA]
    by_cases ho : o = RunOutcome.success
    · rw [if_pos ho]; left; rfl
    · rw [if_neg ho]; right; rfl
  · rw [hdA]
    simpa using hEnd
  · rw [huw]
    by_cases ho : o = RunOutcome.success
    · rw [if_pos ho]; left; decide
    · rw [if_neg ho]; right; decide
  · rw [huA]
    by_cases ho : o = RunOutcome.success
    · rw [if_pos ho]; left; rfl
    · rw [if_neg ho]; right; rfl
  · rw [huA]
    simpa using hEnd

/-- C5 witness: the lifecycle facts hold at a concrete configuration, outcome
and non-zero stamp time. -/
theorem c5_record_lifecycle_witness :
    (⟨9⟩ : GoTime) ≠ GoTime.zero ∧
    (((statusTrace (downloadGoroutine sampleApp RunOutcome.success)).Sublist
        [RequestedStatus, DownloadingStatus, CompletedStatus] ∨
      (statusTrace (downloadGoroutine sampleApp RunOutcome.success)).Sublist
        [RequestedStatus, DownloadingStatus, FailedStatus]) ∧
    RequestedStatus ∉ statusWrites (downloadGoroutine sampleApp RunOutcome.success) ∧
    completionWrites (downloadGoroutine sampleApp RunOutcome.success) = 1 ∧
    ((applyTrace ⟨9⟩ (NewDownloadRecord "w4" ⟨4⟩)
          (downloadGoroutine sampleApp RunOutcome.success)).Status = CompletedStatus ∨
      (applyTrace ⟨9⟩ (NewDownloadRecord "w4" ⟨4⟩)
          (downloadGoroutine sampleApp RunOutcome.success)).Status = FailedStatus) ∧
    (applyTrace ⟨9⟩ (NewDownloadRecord "w4" ⟨4⟩)
        (downloadGoroutine sampleApp RunOutcome.success)).CompletionTime ≠ GoTime.zero ∧
    ((statusTrace (uploadGoroutine sampleApp RunOutcome.success)).Sublist
        [RequestedStatus, UploadingStatus, CompletedStatus] ∨
      (statusTrace (uploadGoroutine sampleApp RunOutcome.success)).Sublist
        [RequestedStatus, UploadingStatus, FailedStatus]) ∧
    RequestedStatus ∉ statusWrites (uploadGoroutine sampleApp RunOutcome.success) ∧
    completionWrites (uploadGoroutine sampleApp RunOutcome.success) = 1 ∧
    ((applyTrace ⟨9⟩ (NewUploadRecord "w4" ⟨4⟩)
          (uploadGoroutine sampleApp RunOutcome.success)).Status = CompletedStatus ∨
      (applyTrace ⟨9⟩ (NewUploadRecord "w4" ⟨4⟩)
          (uploadGoroutine sampleApp RunOutcome.success)).Status = FailedStatus) ∧
    (applyTrace ⟨9⟩ (NewUploadRecord "w4" ⟨4⟩)
        (uploadGoroutine sampleApp RunOutcome.success)).CompletionTime ≠ GoTime.zero ∧
    (NewDownloadRecord "w4" ⟨4⟩).Status = RequestedStatus ∧
    (NewDownloadRecord "w4" ⟨4⟩).CompletionTime = GoTime.zero) :=
  ⟨by decide,
    c5_record_lifecycle sampleApp RunOutcome.success "w4" ⟨4⟩ ⟨9⟩ (by decide)⟩

/-- C7: on every exit path of either goroutine the deferred function runs: the
trace contains exactly one release of the gate flag, the flag is false
afterwards whatever it was before, the completion time is stamped (exactly
once, with the stamp time), and a subsequent request of that kind, finding the
flag false, launches again. -/
theorem c7_deferred_release (a : App) (o : RunOutcome) (g : Bool)
    (id id2 : String) (t0 tEnd now2 : GoTime) (recs : HistoricalRecords) :
    releaseWrites (downloadGoroutine a o) = 1 ∧
    gateAfter g (downloadGoroutine a o) = false ∧
    completionWrites (downloadGoroutine a o) = 1 ∧
    (applyTrace tEnd (NewDownloadRecord id t0)
        (downloadGoroutine a o)).CompletionTime = tEnd ∧
    (DownloadFiles a (fun _ => true) (gateAfter g (downloadGoroutine a o))
        recs id2 now2).launched = true ∧
    releaseWrites (uploadGoroutine a o) = 1 ∧
    gateAfter g (uploadGoroutine a o) = false ∧
    completionWrites (uploadGoroutine a o) = 1 ∧
    (applyTrace tEnd (NewUploadRecord id t0)
        (uploadGoroutine a o)).CompletionTime = tEnd ∧
    (UploadFiles a (gateAfter g (uploadGoroutine a o)) recs id2 now2).launched =
      true := by
  cases o <;>
    exact ⟨rfl, rfl, rfl, rfl, rfl, rfl, rfl, rfl, rfl, rfl⟩

/-- C8: a trigger request of either kind appends exactly one record, carrying
the fresh id, to its kind's store before responding; the status poll on that
id returns exactly that record, and a poll returns the not-found signal
precisely for the ids that no stored record carries. -/
theorem c8_store_append_and_poll (a : App) (fs : String → Bool) (g : Bool)
    (recs : HistoricalRecords) (id : String) (now : GoTime)
    (hfresh : ∀ r ∈ recs, r.UUID ≠ id) :
    (DownloadFiles a fs g recs id now).records =
      recs ++ [(DownloadFiles a fs g recs id now).record] ∧
    (DownloadFiles a fs g recs id now).record.UUID = id ∧
    GetDownloadStatus (DownloadFiles a fs g recs id now).records id =
      some (DownloadFiles a fs g recs id now).record ∧
    (UploadFiles a g recs id now).records =
      recs ++ [(UploadFiles a g recs id now).record] ∧
    (UploadFiles a g recs id now).record.UUID = id ∧
    GetUploadStatus (UploadFiles a g recs id now).records id =
      some (UploadFiles a g recs id now).record ∧
    (∀ q, GetDownloadStatus (DownloadFiles a fs g recs id now).records q =
        none ↔
      ∀ r ∈ (DownloadFiles a fs g recs id now).records, r.UUID ≠ q) ∧
    (∀ q, GetUploadStatus (UploadFiles a g recs id now).records q = none ↔
      ∀ r ∈ (UploadFiles a g recs id now).records, r.UUID ≠ q) := by
  refine ⟨rfl, rfl, ?_, rfl, rfl, ?_, ?_, ?_⟩
  · exact FindRecord_append_fresh recs (NewDownloadRecord id now) hfresh
  · exact FindRecord_append_fresh recs (NewUploadRecord id now) hfresh
  · intro q
    exact FindRecord_eq_none_iff _ q
  · intro q
    exact FindRecord_eq_none_iff _ q

/-- C8 witness: the freshness hypothesis and the conclusion hold for an empty
store and a concrete id. -/
theorem c8_store_append_and_poll_witness :
    (∀ r ∈ ([] : HistoricalRecords), r.UUID ≠ "abc") ∧
    ((DownloadFiles sampleApp (fun _ => true) false [] "abc" ⟨1⟩).records =
        [] ++ [(DownloadFiles sampleApp (fun _ => true) false [] "abc"
          ⟨1⟩).record] ∧
      (DownloadFiles sampleApp (fun _ => true) false [] "abc" ⟨1⟩).record.UUID =
        "abc" ∧
      GetDownloadStatus
          (DownloadFiles sampleApp (fun _ => true) false [] "abc" ⟨1⟩).records
          "abc" =
        some (DownloadFiles sampleApp (fun _ => true) false [] "abc"
          ⟨1⟩).record ∧
      (UploadFiles sampleApp false [] "abc" ⟨1⟩).records =
        [] ++ [(UploadFiles sampleApp false [] "abc" ⟨1⟩).record] ∧
      (UploadFiles sampleApp false [] "abc" ⟨1⟩).record.UUID = "abc" ∧
      GetUploadStatus (UploadFiles sampleApp false [] "abc" ⟨1⟩).records
          "abc" =
        some (UploadFiles sampleApp false [] "abc" ⟨1⟩).record ∧
      (∀ q, GetDownloadStatus
          (DownloadFiles sampleApp (fun _ => true) false [] "abc" ⟨1⟩).records
            q = none ↔
        ∀ r ∈ (DownloadFiles sampleApp (fun _ => true) false [] "abc"
            ⟨1⟩).records, r.UUID ≠ q) ∧
      (∀ q, GetUploadStatus (UploadFiles sampleApp false [] "abc" ⟨1⟩).records
            q = none ↔
        ∀ r ∈ (UploadFiles sampleApp false [] "abc" ⟨1⟩).records,
          r.UUID ≠ q)) :=
  ⟨by simp,
    c8_store_append_and_poll sampleApp (fun _ => true) false [] "abc" ⟨1⟩
      (by simp)⟩

/-- An upload thread holds the gate while it is between its successful
check-and-set and its deferred release. -/
def uHolds (pc : UPhase) : Bool :=
  pc == UPhase.startProc || pc == UPhase.finishProc

/-- Invariant of the two-thread upload interleaving: the number of active
subprocesses equals the number of threads past their start, at most one thread
holds the gate, and a held gate shows the running flag true. -/
def uInv (s : URaceState) : Prop :=
  s.active = (if s.pc2 = UPhase.finishProc then 1 else 0) +
      (if s.pc1 = UPhase.finishProc then 1 else 0) ∧
    ¬(uHolds s.pc1 = true ∧ uHolds s.pc2 = true) ∧
    ((uHolds s.pc1 = true ∨ uHolds s.pc2 = true) → s.running = true)

/-- The initial upload state satisfies the invariant. -/
theorem uInv_init : uInv uraceInit := by
  refine ⟨rfl, ?_, ?_⟩ <;> decide

/-- Every atomic step of either upload thread preserves the invariant: the
atomic check-and-set of the handler is what makes this go through. -/
theorem uInv_step (s : URaceState) (b : Bool) (h : uInv s) :
    uInv (ustep s b) := by
  obtain ⟨running, pc1, pc2, active, launches⟩ := s
  obtain ⟨hact, hexcl, hrun⟩ := h
  simp only [uInv, uHolds, ustep] at hact hexcl hrun ⊢
  cases b <;> cases pc1 <;> cases pc2 <;> cases running <;> simp_all

/-- The invariant holds after every schedule. -/
theorem uInv_run (sched : List Bool) : uInv (urun sched) := by
  have general : ∀ (l : List Bool) (s : URaceState),
      uInv s → uInv (l.foldl ustep s) := by
    intro l
    induction l with
    | nil => intro s hs; exact hs
    | cons b bs ih => intro s hs; exact ih (ustep s b) (uInv_step s b hs)
  exact general sched uraceInit uInv_init

/-- Under every interleaving of two concurrent upload requests at most one
porklock upload subprocess is active at any instant: the upload handler reads
and sets the running flag in one critical section, in contrast with the
download handler of c1_download_gate_race. -/
theorem upload_gate_exclusive (sched : List Bool) :
    (urun sched).active ≤ 1 := by
  obtain ⟨hact, hexcl, hrun⟩ := uInv_run sched
  by_cases h1 : (urun sched).pc1 = UPhase.finishProc <;>
    by_cases h2 : (urun sched).pc2 = UPhase.finishProc
  · exact absurd ⟨by simp [uHolds, h1], by simp [uHolds, h2]⟩ hexcl
  · simp [h1, h2] at hact
    omega
  · simp [h1, h2] at hact
    omega
  · simp [h1, h2] at hact
    omega

end VFT
